import Mathlib

/-!
Shallow embedding of the extraction-orchestration pipeline of the
`commis` repository (src/src/services/video-extractor.js and
src/src/services/extraction-logger.js).

JavaScript numbers are modelled as exact rationals (`ℚ`); `toFixed(n)`
followed by `parseFloat` is modelled as round-half-up at `n` decimal
places.  JavaScript string truthiness (`!!s`, `s || d`) is modelled by
the `jsTruthyStr` / `jsOrStr` helpers (empty string is falsy).  Remote
calls and filesystem reads are modelled by explicit outcome environments;
local bookkeeping operations (mkdir, log writes) are assumed to succeed.
-/

/-- JS truthiness of an optional string: `null`/`undefined` and `""` are falsy. -/
def jsTruthyStr : Option String → Bool
  | none => false
  | some s => s ≠ ""

/-- JS `a || d` for an optional string `a` and default `d`. -/
def jsOrStr (a : Option String) (d : String) : String :=
  match a with
  | none => d
  | some s => if s = "" then d else s

/-- JS `a || b` for two optional strings (used for `frames[i] || frames[j]`). -/
def jsOrOpt (a b : Option String) : Option String :=
  match a with
  | none => b
  | some s => if s = "" then b else a

/-- Model of `parseFloat(x.toFixed(2))`: round half-up at two decimals. -/
def round2 (q : ℚ) : ℚ :=
  (⌊q * 100 + 1 / 2⌋ : ℚ) / 100

/-- Model of `x.toFixed(0)` as used inside issue messages: round half-up to an integer. -/
def round0 (q : ℚ) : ℤ :=
  ⌊q + 1 / 2⌋

/-- `[...new Set(l)]`: deduplicate keeping first occurrences, preserving order. -/
def jsSetDedupAux : List String → List String → List String
  | _, [] => []
  | seen, x :: xs =>
      if x ∈ seen then jsSetDedupAux seen xs
      else x :: jsSetDedupAux (x :: seen) xs

/-- `[...new Set(l)]` over the whole list. -/
def jsSetDedup (l : List String) : List String :=
  jsSetDedupAux [] l

/-- One menu item as carried through the pipeline (pass-1 items have no
`confidence`/`needsReview` yet; they are `none`/`false` here). -/
structure MenuItem where
  name : String
  description : Option String := none
  category : String := ""
  price : Option ℚ := none
  dietaryTags : List String := []
  source : Option String := none
  timestamp : Option ℚ := none
  confidence : Option ℚ := none
  needsReview : Bool := false
deriving DecidableEq

/-- The menu-extraction stage result (`{ items, verified, menuStyleNotes? }`). -/
structure MenuExtraction where
  items : List MenuItem
  verified : Bool
  menuStyleNotes : Option String := none
deriving DecidableEq

/-- Restaurant info record; `nameConfidence` models `info.confidence?.name`. -/
structure RestaurantInfo where
  name : Option String := none
  cuisineType : Option String := none
  description : Option String := none
  tagline : Option String := none
  ambiance : String := ""
  priceRange : String := ""
  features : List String := []
  nameConfidence : Option ℚ := none
  cuisineConfidence : Option ℚ := none
  descriptionConfidence : Option ℚ := none
deriving DecidableEq

/-- Style / brand profile record. -/
structure Style where
  theme : String
  primaryColor : String
  secondaryColor : String
  mood : String
  fontStyle : String
  designNotes : Option String := none
deriving DecidableEq

/-- A frame proposed by the frame-selection stage (no image path yet). -/
structure KeyFrame where
  timestamp : ℚ
  type : String
  description : String
  priority : String
deriving DecidableEq

/-- A materialized frame in the final result (frame-based fallback frames
carry no timestamp, hence `Option ℚ`). -/
structure ExtractedFrame where
  path : Option String := none
  type : String
  description : String := ""
  priority : String
  timestamp : Option ℚ := none
deriving DecidableEq

/-- The assembled result of one run. -/
structure ExtractionResult where
  frames : List ExtractedFrame
  menuItems : MenuExtraction
  restaurantInfo : RestaurantInfo
  style : Style
deriving DecidableEq

/-- One quality issue (`type` is the severity: `"critical"` or `"warning"`). -/
structure Issue where
  type : String
  category : String
  message : String
deriving DecidableEq

/-- Per-dimension quality scores as reported (two-decimal rounded). -/
structure QualityScores where
  menu : ℚ
  restaurantInfo : ℚ
  frames : ℚ
  style : ℚ
deriving DecidableEq

/-- The `summary` block of a quality report. -/
structure QualitySummary where
  menuItems : Nat
  menuNeedsReview : Nat
  menuAvgConfidence : ℚ
  framesExtracted : Nat
  frameTypes : List String
  hasRestaurantName : Bool
  isDefaultStyle : Bool
deriving DecidableEq

/-- The quality report produced by `assessQuality`. -/
structure QualityReport where
  rating : String
  overall : ℚ
  scores : QualityScores
  issues : List Issue
  summary : QualitySummary
deriving DecidableEq

/-- `result?.menuItems?.items || []`. -/
def menuItemsOf (r : ExtractionResult) : List MenuItem :=
  r.menuItems.items

/-- `menuItems.length`. -/
def menuCountOf (r : ExtractionResult) : Nat :=
  (menuItemsOf r).length

/-- `menuItems.filter(i => i.needsReview).length`. -/
def needsReviewCountOf (r : ExtractionResult) : Nat :=
  ((menuItemsOf r).filter (fun i => i.needsReview)).length

/-- Average item confidence: `reduce((s,i) => s + (i.confidence || 0)) / count`,
`0` when there are no items. -/
def avgConfidenceOf (r : ExtractionResult) : ℚ :=
  if 0 < menuCountOf r then
    ((menuItemsOf r).map (fun i => i.confidence.getD 0)).sum / (menuCountOf r : ℚ)
  else 0

/-- `menuItems.filter(i => i.price != null).length`. -/
def itemsWithPriceOf (r : ExtractionResult) : Nat :=
  ((menuItemsOf r).filter (fun i => i.price.isSome)).length

/-- `scores.menu` before rounding (extraction-logger.js, lines 112–114). -/
def menuScoreRaw (r : ExtractionResult) : ℚ :=
  min 1 ((menuCountOf r : ℚ) / 5) * 0.4 +
    (1 - (needsReviewCountOf r : ℚ) / (max (menuCountOf r) 1 : ℚ)) * 0.3 +
    avgConfidenceOf r * 0.3

/-- `!!info.name`. -/
def hasNameOf (r : ExtractionResult) : Bool :=
  jsTruthyStr r.restaurantInfo.name

/-- `info.confidence?.name || 0`. -/
def nameConfidenceOf (r : ExtractionResult) : ℚ :=
  r.restaurantInfo.nameConfidence.getD 0

/-- `!!info.cuisineType && info.cuisineType !== "Restaurant"`. -/
def hasCuisineOf (r : ExtractionResult) : Bool :=
  jsTruthyStr r.restaurantInfo.cuisineType &&
    r.restaurantInfo.cuisineType != some "Restaurant"

/-- `!!info.description && info.description.length > 20`. -/
def hasDescriptionOf (r : ExtractionResult) : Bool :=
  match r.restaurantInfo.description with
  | none => false
  | some d => d ≠ "" && decide (20 < d.length)

/-- `scores.restaurantInfo` before rounding (lines 138–140). -/
def infoScoreRaw (r : ExtractionResult) : ℚ :=
  (if hasNameOf r then 0.4 else 0) +
    (if hasCuisineOf r then 0.3 else 0) +
    (if hasDescriptionOf r then 0.3 else 0)

/-- The list of frame category tags (`frames.map(f => f.type)` membership is
`frameTypes.has(t)`). -/
def frameTypesListOf (r : ExtractionResult) : List String :=
  r.frames.map (fun f => f.type)

/-- `frameTypes.has("food")` etc. -/
def hasFrameType (r : ExtractionResult) (t : String) : Bool :=
  (frameTypesListOf r).contains t

/-- `frames.filter(f => f.priority === "high").length`. -/
def highPriorityFramesOf (r : ExtractionResult) : Nat :=
  (r.frames.filter (fun f => f.priority == "high")).length

/-- `scores.frames` before rounding (lines 160–164). -/
def framesScoreRaw (r : ExtractionResult) : ℚ :=
  (if 8 ≤ r.frames.length then (0.3 : ℚ) else (r.frames.length : ℚ) / 8 * 0.3) +
    (if hasFrameType r "food" then 0.2 else 0) +
    (if hasFrameType r "exterior" then 0.15 else 0) +
    (if hasFrameType r "interior" then 0.15 else 0) +
    (if 3 ≤ highPriorityFramesOf r then (0.2 : ℚ)
     else (highPriorityFramesOf r : ℚ) / 3 * 0.2)

/-- `style.primaryColor === "#2563eb" && style.theme === "modern"` (line 180). -/
def isDefaultStyleOf (r : ExtractionResult) : Bool :=
  r.style.primaryColor == "#2563eb" && r.style.theme == "modern"

/-- `scores.style` before rounding (line 182). -/
def styleScoreRaw (r : ExtractionResult) : ℚ :=
  if isDefaultStyleOf r then 0.3 else 1

/-- The full style tuple, for comparison with the default fallback tuple. -/
def styleTupleOf (r : ExtractionResult) : String × String × String × String × String :=
  (r.style.theme, r.style.primaryColor, r.style.secondaryColor, r.style.mood,
    r.style.fontStyle)

/-- The default fallback style tuple from the parse-failure path of `extractStyle`. -/
def defaultStyleTuple : String × String × String × String × String :=
  ("modern", "#2563eb", "#f59e0b", "warm", "sans-serif")

/-- The unrounded overall score (line 189). -/
def overallRaw (r : ExtractionResult) : ℚ :=
  menuScoreRaw r * 0.35 + infoScoreRaw r * 0.25 + framesScoreRaw r * 0.25 +
    styleScoreRaw r * 0.15

/-- The issue list, built in the exact order of `assessQuality`. -/
def issuesOf (r : ExtractionResult) : List Issue :=
  (if menuCountOf r = 0 then
    [{ type := "critical", category := "menu", message := "No menu items found" }]
   else if menuCountOf r < 3 then
    [{ type := "warning", category := "menu",
       message := "Only " ++ toString (menuCountOf r) ++ " menu items found" }]
   else []) ++
  (if 0 < menuCountOf r ∧ needsReviewCountOf r = menuCountOf r then
    [{ type := "warning", category := "menu", message := "All menu items need review" }]
   else []) ++
  (if 0 < menuCountOf r ∧ avgConfidenceOf r < 0.6 then
    [{ type := "warning", category := "menu",
       message := "Low average confidence: " ++
         toString (round0 (avgConfidenceOf r * 100)) ++ "%" }]
   else []) ++
  (if 0 < menuCountOf r ∧ itemsWithPriceOf r = 0 then
    [{ type := "warning", category := "menu", message := "No prices detected on any items" }]
   else []) ++
  (if ¬ hasNameOf r then
    [{ type := "warning", category := "info", message := "Restaurant name not detected" }]
   else if nameConfidenceOf r < 0.7 then
    [{ type := "warning", category := "info",
       message := "Low confidence on restaurant name: " ++
         toString (round0 (nameConfidenceOf r * 100)) ++ "%" }]
   else []) ++
  (if ¬ hasCuisineOf r then
    [{ type := "warning", category := "info", message := "Cuisine type not identified" }]
   else []) ++
  (if r.frames.length = 0 then
    [{ type := "critical", category := "frames", message := "No frames extracted" }]
   else if r.frames.length < 5 then
    [{ type := "warning", category := "frames",
       message := "Only " ++ toString r.frames.length ++ " frames extracted" }]
   else []) ++
  (if ¬ hasFrameType r "food" then
    [{ type := "warning", category := "frames", message := "No food photos detected" }]
   else []) ++
  (if ¬ hasFrameType r "exterior" ∧ ¬ hasFrameType r "interior" then
    [{ type := "warning", category := "frames", message := "No exterior or interior shots" }]
   else []) ++
  (if isDefaultStyleOf r then
    [{ type := "warning", category := "style",
       message := "Using default styling (no brand colors detected)" }]
   else [])

/-- The rating cascade (lines 192–201), applied to the *unrounded* overall. -/
def ratingOf (issues : List Issue) (overall : ℚ) : String :=
  if issues.any (fun i => i.type == "critical") then "poor"
  else if 0.8 ≤ overall ∧ issues = [] then "good"
  else if 0.6 ≤ overall then "fair"
  else "poor"

/-- `assessQuality` (extraction-logger.js, lines 99–223): reported scores are
rounded to two decimals; the rating is computed from the unrounded overall. -/
def assessQuality (r : ExtractionResult) : QualityReport :=
  { rating := ratingOf (issuesOf r) (overallRaw r)
    overall := round2 (overallRaw r)
    scores :=
      { menu := round2 (menuScoreRaw r)
        restaurantInfo := round2 (infoScoreRaw r)
        frames := round2 (framesScoreRaw r)
        style := round2 (styleScoreRaw r) }
    issues := issuesOf r
    summary :=
      { menuItems := menuCountOf r
        menuNeedsReview := needsReviewCountOf r
        menuAvgConfidence := round2 (avgConfidenceOf r)
        framesExtracted := r.frames.length
        frameTypes := jsSetDedup (frameTypesListOf r)
        hasRestaurantName := hasNameOf r
        isDefaultStyle := isDefaultStyleOf r } }

/-- Outcome of one `generateContent` call: the awaited remote call throws
(`remoteFail`), returns text that fails JSON parsing (`parseFail`), or returns
text parsing to a value (`ok`). -/
inductive CallResult (α : Type) where
  | remoteFail (msg : String)
  | parseFail (raw : String)
  | ok (value : α)
deriving DecidableEq

/-- `true` iff the awaited call itself threw. -/
def CallResult.isRemoteFail {α : Type} : CallResult α → Bool
  | .remoteFail _ => true
  | _ => false

/-- `true` iff an `Except`-modelled operation threw. -/
def isErr {α : Type} : Except String α → Bool
  | .error _ => true
  | .ok _ => false

/-- Parsed pass-1 payload: `parsed1.items || []` and `parsed1.menuStyleNotes || ""`. -/
structure Pass1Parsed where
  items : List MenuItem
  menuStyleNotes : String
deriving DecidableEq

/-- Environment fixing every remote/external outcome of one primary-pipeline
attempt.  `upload` covers the §4.1 upload + readiness poll (its `FAILED`
terminal state is an error); `metadata` is the local ffprobe of the
frame-extraction collaborator; the five `*Call` fields are the analyze calls;
`frameExtract` is the per-timestamp frame materialization. -/
structure Env where
  upload : Except String Unit
  metadata : Except String ℚ
  framesCall : CallResult (List KeyFrame)
  pass1Call : CallResult Pass1Parsed
  pass2Call : CallResult (List MenuItem)
  infoCall : CallResult RestaurantInfo
  styleCall : CallResult Style
  frameExtract : ℚ → Except String String

/-- Fallback restaurant info substituted on an info parse failure
(video-extractor.js, lines 496–505). -/
def defaultRestaurantInfo : RestaurantInfo :=
  { name := none
    cuisineType := some "Restaurant"
    description := some "A local restaurant."
    tagline := some "Great food, great experience."
    ambiance := "casual"
    priceRange := "$$"
    features := []
    nameConfidence := some 0
    cuisineConfidence := some 0.5
    descriptionConfidence := some 0.5 }

/-- Fallback style substituted on a style parse failure (lines 572–579). -/
def defaultStyle : Style :=
  { theme := "modern"
    primaryColor := "#2563eb"
    secondaryColor := "#f59e0b"
    mood := "warm"
    fontStyle := "sans-serif"
    designNotes := some "Default styling applied" }

/-- The 10 evenly spaced fallback frames built on a frame-selection parse
failure (lines 220–228): `interval = duration / 11`, timestamps
`interval * (i + 1)` for `i = 0..9`. -/
def fallbackFrames (duration : ℚ) : List KeyFrame :=
  (List.range 10).map (fun (i : Nat) =>
    { timestamp := duration / 11 * ((i : ℚ) + 1)
      type := "unknown"
      description := "Auto-selected frame"
      priority := "medium" })

/-- `selectKeyFrames` (lines 150–241): remote failure propagates; a parse
failure is absorbed into the evenly spaced fallback frames. -/
def selectKeyFrames (env : Env) (duration : ℚ) : Except String (List KeyFrame) :=
  match env.framesCall with
  | .remoteFail msg => .error msg
  | .parseFail _ => .ok (fallbackFrames duration)
  | .ok frames => .ok frames

/-- The pass-2 fallback decoration: `{ ...item, confidence: 0.7, needsReview: true }`. -/
def fallbackItem (item : MenuItem) : MenuItem :=
  { item with confidence := some 0.7, needsReview := true }

/-- `extractMenuTwoPass` (lines 246–438).  Pass-1 remote failure propagates;
pass-1 parse failure yields an empty unverified result; zero pass-1 items skip
pass 2 and yield an empty verified result; pass-2 remote or parse failure
falls back to the pass-1 items with default confidence. -/
def extractMenuTwoPass (env : Env) : Except String MenuExtraction :=
  match env.pass1Call with
  | .remoteFail msg => .error msg
  | .parseFail _ => .ok { items := [], verified := false, menuStyleNotes := none }
  | .ok p =>
      if p.items = [] then
        .ok { items := [], verified := true, menuStyleNotes := some p.menuStyleNotes }
      else
        match env.pass2Call with
        | .remoteFail _ =>
            .ok { items := p.items.map fallbackItem, verified := false
                  menuStyleNotes := some p.menuStyleNotes }
        | .parseFail _ =>
            .ok { items := p.items.map fallbackItem, verified := false
                  menuStyleNotes := some p.menuStyleNotes }
        | .ok verifiedItems =>
            .ok { items := verifiedItems, verified := true
                  menuStyleNotes := some p.menuStyleNotes }

/-- `extractRestaurantInfo` (lines 443–519): remote failure propagates, parse
failure substitutes the fixed neutral default. -/
def extractRestaurantInfo (env : Env) : Except String RestaurantInfo :=
  match env.infoCall with
  | .remoteFail msg => .error msg
  | .parseFail _ => .ok defaultRestaurantInfo
  | .ok info => .ok info

/-- `extractStyle` (lines 524–593): the restaurant info is only prompt
context; remote failure propagates, parse failure substitutes the default. -/
def extractStyle (env : Env) (_info : RestaurantInfo) : Except String Style :=
  match env.styleCall with
  | .remoteFail msg => .error msg
  | .parseFail _ => .ok defaultStyle
  | .ok style => .ok style

/-- `extractFramesFromTimestamps` (lines 598–641): each timestamp is attempted
independently; a per-frame failure is recorded and the frame skipped.  The
local mkdir is assumed to succeed. -/
def extractFramesFromTimestamps (env : Env) (frames : List KeyFrame) :
    List ExtractedFrame :=
  frames.filterMap (fun f =>
    match env.frameExtract f.timestamp with
    | .error _ => none
    | .ok p =>
        some { path := some p, type := f.type, description := f.description
               priority := f.priority, timestamp := some f.timestamp })

/-- Run metadata fields the pipeline actually sets. -/
structure RunMetadata where
  videoPath : String := ""
  videoDuration : Option ℚ := none
  usedFallback : Bool := false
  nativeError : Option String := none
deriving DecidableEq

/-- A persisted run record (the logger state at save time). -/
structure Run where
  runId : Nat
  status : String
  metadata : RunMetadata
  result : Option ExtractionResult
  quality : Option QualityReport
  error : Option String
deriving DecidableEq

/-- A run persisted by the catch path: `logger.fail(err); logger.save()`. -/
def mkFailedRun (runId : Nat) (meta : RunMetadata) (e : String) : Run :=
  { runId := runId, status := "failed", metadata := meta, result := none
    quality := none, error := some e }

/-- A run persisted by the success path: `logger.complete(result); logger.save()`
(completion computes the quality report). -/
def mkCompletedRun (runId : Nat) (meta : RunMetadata) (result : ExtractionResult) : Run :=
  { runId := runId, status := "completed", metadata := meta
    result := some result, quality := some (assessQuality result), error := none }

/-- `extract` (video-extractor.js, lines 27–93): the primary pipeline.  Returns
the persisted run together with the value returned / error rethrown to the
caller.  `Promise.all` rejects with one of its member rejections; the model
surfaces the first failing member in the listed order (the persisted status is
the same whichever member wins the race). -/
def extract (runId : Nat) (videoPath : String) (env : Env) :
    Run × Except String ExtractionResult :=
  let meta0 : RunMetadata := { videoPath := videoPath }
  match env.upload with
  | .error e => (mkFailedRun runId meta0 e, .error e)
  | .ok _ =>
  match env.metadata with
  | .error e => (mkFailedRun runId meta0 e, .error e)
  | .ok duration =>
  let meta1 : RunMetadata := { meta0 with videoDuration := some duration }
  match selectKeyFrames env duration with
  | .error e => (mkFailedRun runId meta1 e, .error e)
  | .ok keyframes =>
  match extractMenuTwoPass env with
  | .error e => (mkFailedRun runId meta1 e, .error e)
  | .ok menu =>
  match extractRestaurantInfo env with
  | .error e => (mkFailedRun runId meta1 e, .error e)
  | .ok info =>
  match extractStyle env info with
  | .error e => (mkFailedRun runId meta1 e, .error e)
  | .ok style =>
  let result : ExtractionResult :=
    { frames := extractFramesFromTimestamps env keyframes
      menuItems := menu, restaurantInfo := info, style := style }
  (mkCompletedRun runId meta1 result, .ok result)

/-- One photo entry of the frame-based vision response. -/
structure GVPhoto where
  frameIndex : Nat
  type : String
  description : String
deriving DecidableEq

/-- One menu-item entry of the frame-based vision response. -/
structure GVMenuItem where
  name : String
  description : Option String := none
  category : Option String := none
  estimatedPrice : Option ℚ := none
deriving DecidableEq

/-- The frame-based vision response (`gemini.extractRestaurantData`). -/
structure ExtractedData where
  photos : Option (List GVPhoto) := none
  menuItems : Option (List GVMenuItem) := none
  restaurantName : Option String := none
  cuisineType : Option String := none
  description : Option String := none
  tagline : Option String := none
  styleTheme : Option String := none
  primaryColor : Option String := none
deriving DecidableEq

/-- Environment for the frame-based fallback pipeline: the sampled frame paths
and the single combined vision call, either of which may throw. -/
structure FallbackEnv where
  extractFrames : Except String (List String)
  visionData : Except String ExtractedData

/-- `extractFrameBased` (lines 690–740): single-pass frame-sampling fallback.
Every produced menu item gets `confidence = 0.7` and `needsReview = true`,
and the menu result is unverified. -/
def extractFrameBased (env : FallbackEnv) : Except String ExtractionResult :=
  match env.extractFrames with
  | .error e => .error e
  | .ok framePaths =>
  match env.visionData with
  | .error e => .error e
  | .ok d =>
  .ok
    { frames :=
        (d.photos.getD []).enum.map (fun pr =>
          { path := jsOrOpt (framePaths.get? pr.2.frameIndex) (framePaths.get? pr.1)
            type := pr.2.type
            description := pr.2.description
            priority := "medium"
            timestamp := none })
      menuItems :=
        { items :=
            (d.menuItems.getD []).map (fun it =>
              { name := it.name
                description := it.description
                category := jsOrStr it.category "Main Dishes"
                price := it.estimatedPrice
                dietaryTags := []
                confidence := some 0.7
                needsReview := true })
          verified := false
          menuStyleNotes := none }
      restaurantInfo :=
        { name := d.restaurantName
          cuisineType := d.cuisineType
          description := d.description
          tagline := d.tagline
          ambiance := "casual"
          priceRange := "$$"
          features := [] }
      style :=
        { theme := jsOrStr d.styleTheme "modern"
          primaryColor := jsOrStr d.primaryColor "#2563eb"
          secondaryColor := "#f59e0b"
          mood := "warm"
          fontStyle := "sans-serif"
          designNotes := none } }

/-- `extractWithFallback` (lines 658–685): run the primary pipeline; on any
throw, start a brand-new run (next fresh identifier) with
`usedFallback = true` metadata, attempt the frame-based fallback, and rethrow
only if that also throws.  Returns the persisted runs in save order and the
value/error surfaced to the caller. -/
def extractWithFallback (n : Nat) (videoPath : String) (env : Env)
    (fbEnv : FallbackEnv) : List Run × Except String ExtractionResult :=
  match extract n videoPath env with
  | (run, .ok result) => ([run], .ok result)
  | (run, .error e) =>
    let fbMeta : RunMetadata :=
      { videoPath := videoPath, usedFallback := true, nativeError := some e }
    match extractFrameBased fbEnv with
    | .ok result =>
        ([run, mkCompletedRun (n + 1) fbMeta result], .ok result)
    | .error fe =>
        ([run, mkFailedRun (n + 1) fbMeta fe], .error fe)

/-- One entry of the recent-runs index (the summary unshifted by `updateIndex`). -/
structure RunSummary where
  runId : Nat
  status : String
  error : Option String := none
deriving DecidableEq

/-- `updateIndex` (extraction-logger.js, lines 264–299): drop any existing
entry for this run, put the new summary at the front, keep only the most
recent 100 entries. -/
def updateIndex (index : List RunSummary) (s : RunSummary) : List RunSummary :=
  (s :: index.filter (fun r => r.runId ≠ s.runId)).take 100

/-- `listRuns` (lines 314–324): the parsed index, or `[]` when it does not
exist / cannot be read. -/
def listRuns (stored : Option (List RunSummary)) : List RunSummary :=
  stored.getD []

/-- A concrete verified menu item used by test inputs. -/
def sampleItem (c : ℚ) (rev : Bool) : MenuItem :=
  { name := "dish", category := "Mains", price := some 10, confidence := some c
    needsReview := rev }

/-- A concrete extracted frame used by test inputs. -/
def sampleFrame (t p : String) : ExtractedFrame :=
  { path := some "frame.jpg", type := t, description := "d", priority := p
    timestamp := some 1 }

/-- A result whose style shares `theme`/`primaryColor` with the default
fallback tuple but differs in the remaining components. -/
def partialDefaultStyleResult : ExtractionResult :=
  { frames := [sampleFrame "food" "high"]
    menuItems := { items := [sampleItem 0.9 false], verified := true }
    restaurantInfo := { name := some "Luigi", cuisineType := some "Italian"
                        nameConfidence := some 0.9 }
    style := { theme := "modern", primaryColor := "#2563eb"
               secondaryColor := "#000000", mood := "cool", fontStyle := "serif" } }

/-- A result with no menu items and no frames (two critical issues). -/
def emptyResult : ExtractionResult :=
  { frames := []
    menuItems := { items := [], verified := true }
    restaurantInfo := {}
    style := { theme := "modern", primaryColor := "#2563eb"
               secondaryColor := "#f59e0b", mood := "warm", fontStyle := "sans-serif" } }

/-- The claim C8 sample: 3 items with confidences 0.9, 0.4, 0.8, one flagged
`needsReview`. -/
def menuConfidenceSample : ExtractionResult :=
  { frames := [sampleFrame "food" "high"]
    menuItems := { items := [sampleItem 0.9 false, sampleItem 0.4 true, sampleItem 0.8 false]
                   verified := true }
    restaurantInfo := { name := some "Luigi", cuisineType := some "Italian"
                        nameConfidence := some 0.9 }
    style := { theme := "rustic", primaryColor := "#8B4513"
               secondaryColor := "#F5DEB3", mood := "warm", fontStyle := "serif" } }

/-- A result with an empty issue list whose unrounded overall score is
0.79725: the reported overall rounds to 0.8 while the rating is computed
from the unrounded value. -/
def borderlineResult : ExtractionResult :=
  { frames := [sampleFrame "food" "high", sampleFrame "food" "high",
               sampleFrame "food" "high", sampleFrame "exterior" "medium",
               sampleFrame "interior" "medium", sampleFrame "food" "medium",
               sampleFrame "ambiance" "low", sampleFrame "signage" "low"]
    menuItems := { items := [sampleItem 0.6 false, sampleItem 0.65 true, sampleItem 0.7 false]
                   verified := true, menuStyleNotes := some "printed menu" }
    restaurantInfo := { name := some "Luigi", cuisineType := some "Italian"
                        description := some "ok", tagline := some "t"
                        ambiance := "casual", priceRange := "$$"
                        nameConfidence := some 0.9 }
    style := { theme := "rustic", primaryColor := "#8B4513"
               secondaryColor := "#F5DEB3", mood := "warm", fontStyle := "serif" } }

/-- A concrete non-default style for test environments. -/
def sampleStyle : Style :=
  { theme := "vibrant", primaryColor := "#ff0000", secondaryColor := "#00ff00"
    mood := "warm", fontStyle := "display" }

/-- A concrete restaurant info for test environments. -/
def sampleInfo : RestaurantInfo :=
  { name := some "Luigi", cuisineType := some "Italian", nameConfidence := some 0.9 }

/-- A concrete selected key frame. -/
def sampleKeyFrame : KeyFrame :=
  { timestamp := 2, type := "food", description := "closeup", priority := "high" }

/-- A concrete pass-1 menu item (no confidence yet). -/
def pass1Item : MenuItem :=
  { name := "Pasta", category := "Mains", price := some 12
    source := some "menu board", timestamp := some 3 }

/-- An environment in which every remote call succeeds. -/
def envAllOk : Env :=
  { upload := .ok ()
    metadata := .ok 30
    framesCall := .ok [sampleKeyFrame]
    pass1Call := .ok { items := [pass1Item], menuStyleNotes := "board" }
    pass2Call := .ok [sampleItem 0.9 false]
    infoCall := .ok sampleInfo
    styleCall := .ok sampleStyle
    frameExtract := fun _ => .ok "out.jpg" }

/-- Everything succeeds except the pass-2 menu analyze call, which fails
outright. -/
def envPass2Down : Env :=
  { envAllOk with pass2Call := .remoteFail "network down" }

/-- Everything succeeds except the pass-2 response, which fails to parse. -/
def envPass2Parse : Env :=
  { envAllOk with pass2Call := .parseFail "garbage" }

/-- The upload fails outright. -/
def envUploadFail : Env :=
  { envAllOk with upload := .error "boom" }

/-- The frame-selection response fails to parse. -/
def envFramesParse : Env :=
  { envAllOk with framesCall := .parseFail "oops" }

/-- Pass 1 parses to zero items. -/
def envPass1Empty : Env :=
  { envAllOk with pass1Call := .ok { items := [], menuStyleNotes := "no menu shown" } }

/-- The pass-1 response fails to parse. -/
def envPass1Parse : Env :=
  { envAllOk with pass1Call := .parseFail "bad json" }

/-- A fallback environment in which both frame sampling and the combined
vision call succeed. -/
def fbEnvOk : FallbackEnv :=
  { extractFrames := .ok ["f0.jpg", "f1.jpg"]
    visionData := .ok
      { photos := some [{ frameIndex := 0, type := "food", description := "dish shot" }]
        menuItems := some [{ name := "Tacos", description := some "spicy"
                             category := some "Mains", estimatedPrice := some 9 }]
        restaurantName := some "Casa"
        cuisineType := some "Mexican"
        description := some "d"
        tagline := some "t"
        styleTheme := some "vibrant"
        primaryColor := some "#ff0000" } }

/-- A fallback environment whose frame sampling fails. -/
def fbEnvFail : FallbackEnv :=
  { extractFrames := .error "ffmpeg died", visionData := .error "unused" }

/-- Recent-runs index summaries for the ledger witness. -/
def runSummaryA : RunSummary := { runId := 5, status := "completed" }

/-- A failed-run summary with identifier 7. -/
def runSummaryB : RunSummary := { runId := 7, status := "failed", error := some "e" }

/-- A later summary for the same run identifier 7. -/
def runSummaryB2 : RunSummary := { runId := 7, status := "completed" }

/-- The menu extraction produced by `envPass2Parse`: pass-1 items decorated
with the fallback confidence. -/
def menuFallbackResult : MenuExtraction :=
  { items := [fallbackItem pass1Item], verified := false, menuStyleNotes := some "board" }

/-- C1 (amended): the notion the scorer has of "default style" compares only
`primaryColor` and `theme` against the fallback values; the remaining tuple
components are ignored. -/
theorem c1_style_score_pair (r : ExtractionResult) :
    (assessQuality r).scores.style =
      if r.style.primaryColor = "#2563eb" ∧ r.style.theme = "modern" then 0.3 else 1 := by
  rw [show (assessQuality r).scores.style = round2 (styleScoreRaw r) from rfl]
  simp only [styleScoreRaw, isDefaultStyleOf, Bool.and_eq_true, beq_iff_eq]
  split_ifs <;> norm_num [round2]

/-- C1 counterexample: a style equal to the default in `theme`/`primaryColor`
but different in `secondaryColor`, `mood` and `fontStyle` still scores 0.3,
although its style tuple does not equal the default fallback tuple. -/
theorem c1_counterexample :
    styleTupleOf partialDefaultStyleResult ≠ defaultStyleTuple ∧
    (assessQuality partialDefaultStyleResult).scores.style = 0.3 ∧
    (assessQuality partialDefaultStyleResult).scores.style ≠ 1 := by
  refine ⟨by decide, ?_, ?_⟩ <;>
    · rw [show (assessQuality partialDefaultStyleResult).scores.style =
          round2 (styleScoreRaw partialDefaultStyleResult) from rfl]
      simp +decide [styleScoreRaw, isDefaultStyleOf, partialDefaultStyleResult, round2]
      norm_num

/-- C2: the rating cascade.  A critical issue forces `"poor"` regardless of
the overall score; otherwise `"good"` iff the unrounded overall is ≥ 0.8 with
an empty issue list, `"fair"` iff (not good and) overall ≥ 0.6, else
`"poor"`. -/
theorem c2_rating_cascade (r : ExtractionResult) :
    ((∃ i ∈ (assessQuality r).issues, i.type = "critical") →
      (assessQuality r).rating = "poor") ∧
    ((¬ ∃ i ∈ (assessQuality r).issues, i.type = "critical") →
      ((assessQuality r).rating = "good" ↔
        (0.8 ≤ overallRaw r ∧ (assessQuality r).issues = [])) ∧
      ((assessQuality r).rating = "fair" ↔
        (¬ (0.8 ≤ overallRaw r ∧ (assessQuality r).issues = []) ∧ 0.6 ≤ overallRaw r)) ∧
      ((assessQuality r).rating = "poor" ↔
        (¬ (0.8 ≤ overallRaw r ∧ (assessQuality r).issues = []) ∧ overallRaw r < 0.6))) := by
  rw [show (assessQuality r).rating = ratingOf (issuesOf r) (overallRaw r) from rfl,
    show (assessQuality r).issues = issuesOf r from rfl]
  have hany : ((issuesOf r).any fun i => i.type == "critical") = true ↔
      ∃ i ∈ issuesOf r, i.type = "critical" := by
    simp [List.any_eq_true]
  unfold ratingOf
  constructor
  · intro h
    rw [if_pos (hany.mpr h)]
  · intro h
    rw [if_neg (fun hb => h (hany.mp hb))]
    split_ifs with h1 h2
    · refine ⟨iff_of_true rfl h1, ?_, ?_⟩
      · constructor
        · intro hf; exact absurd hf (by decide)
        · rintro ⟨hn, _⟩; exact absurd h1 hn
      · constructor
        · intro hp; exact absurd hp (by decide)
        · rintro ⟨hn, _⟩; exact absurd h1 hn
    · refine ⟨?_, iff_of_true rfl ⟨h1, h2⟩, ?_⟩
      · constructor
        · intro hg; exact absurd hg (by decide)
        · intro hc; exact absurd hc h1
      · constructor
        · intro hp; exact absurd hp (by decide)
        · rintro ⟨_, hlt⟩; exact absurd h2 (not_le.mpr hlt)
    · refine ⟨?_, ?_, iff_of_true rfl ⟨h1, not_le.mp h2⟩⟩
      · constructor
        · intro hg; exact absurd hg (by decide)
        · intro hc; exact absurd hc h1
      · constructor
        · intro hf; exact absurd hf (by decide)
        · rintro ⟨_, hge⟩; exact absurd hge h2

/-- C2 witness: a result with zero menu items has a critical issue and is
rated `"poor"` even though nothing else is wrong. -/
theorem c2_rating_cascade_witness :
    (∃ i ∈ (assessQuality emptyResult).issues, i.type = "critical") ∧
    (assessQuality emptyResult).rating = "poor" :=
  ⟨by decide, (c2_rating_cascade emptyResult).1 (by decide)⟩

/-- C8: the menu score formula, and the concrete instance: 3 items with
confidences 0.9, 0.4, 0.8 and one flagged `needsReview` give an average
confidence of exactly 0.7 and a menu score of exactly 0.65 (within 0.001 of
the 0.649 of the claim). -/
theorem c8_menu_score_formula :
    (∀ r : ExtractionResult,
      menuScoreRaw r =
        0.4 * min 1 ((menuCountOf r : ℚ) / 5) +
          0.3 * (1 - (needsReviewCountOf r : ℚ) / (max (menuCountOf r) 1 : ℚ)) +
          0.3 * avgConfidenceOf r) ∧
    avgConfidenceOf menuConfidenceSample = 0.7 ∧
    menuScoreRaw menuConfidenceSample = 0.65 ∧
    |menuScoreRaw menuConfidenceSample - 0.649| ≤ 0.001 := by
  refine ⟨fun r => by unfold menuScoreRaw; ring, ?_, ?_, ?_⟩ <;>
    · simp +decide [menuScoreRaw, avgConfidenceOf, menuCountOf, needsReviewCountOf,
        menuItemsOf, menuConfidenceSample, sampleItem]
      norm_num [abs_le]

/-- C10: the reported overall and per-dimension scores are the computed
values rounded to two decimals while the rating is derived from the unrounded
overall; concretely, `borderlineResult` has no issues, reports overall 0.8,
yet is rated `"fair"` because its unrounded overall is 0.79725 < 0.8. -/
theorem c10_rounded_report_unrounded_rating :
    (∀ r : ExtractionResult,
      (assessQuality r).overall = round2 (overallRaw r) ∧
      (assessQuality r).scores.menu = round2 (menuScoreRaw r) ∧
      (assessQuality r).scores.restaurantInfo = round2 (infoScoreRaw r) ∧
      (assessQuality r).scores.frames = round2 (framesScoreRaw r) ∧
      (assessQuality r).scores.style = round2 (styleScoreRaw r) ∧
      (assessQuality r).rating = ratingOf (issuesOf r) (overallRaw r)) ∧
    ((assessQuality borderlineResult).issues = [] ∧
      overallRaw borderlineResult = 79725 / 100000 ∧
      (assessQuality borderlineResult).overall = 0.8 ∧
      overallRaw borderlineResult < 0.8 ∧
      (assessQuality borderlineResult).rating = "fair") := by
  refine ⟨fun r => ⟨rfl, rfl, rfl, rfl, rfl, rfl⟩, ?_, ?_, ?_, ?_, ?_⟩ <;>
    · simp +decide [assessQuality, ratingOf, issuesOf, round2, overallRaw, menuScoreRaw,
        infoScoreRaw, framesScoreRaw, styleScoreRaw, menuCountOf, needsReviewCountOf,
        avgConfidenceOf, menuItemsOf, itemsWithPriceOf, hasNameOf, hasCuisineOf,
        hasDescriptionOf, nameConfidenceOf, jsTruthyStr, hasFrameType, frameTypesListOf,
        highPriorityFramesOf, isDefaultStyleOf, borderlineResult, sampleItem, sampleFrame]
      norm_num

/-- The frame-selection stage throws exactly when its analyze call throws. -/
theorem isErr_selectKeyFrames (env : Env) (d : ℚ) :
    isErr (selectKeyFrames env d) = env.framesCall.isRemoteFail := by
  cases h : env.framesCall <;>
    simp [selectKeyFrames, h, isErr, CallResult.isRemoteFail]

/-- The two-pass menu stage throws exactly when the pass-1 analyze call
throws (pass-2 failures of any kind are absorbed). -/
theorem isErr_extractMenuTwoPass (env : Env) :
    isErr (extractMenuTwoPass env) = env.pass1Call.isRemoteFail := by
  cases h : env.pass1Call with
  | remoteFail m => simp [extractMenuTwoPass, h, isErr, CallResult.isRemoteFail]
  | parseFail raw => simp [extractMenuTwoPass, h, isErr, CallResult.isRemoteFail]
  | ok p =>
      simp only [extractMenuTwoPass, h]
      split_ifs with hi
      · simp [isErr, CallResult.isRemoteFail]
      · cases h2 : env.pass2Call <;> simp [isErr, CallResult.isRemoteFail]

/-- The restaurant-info stage throws exactly when its analyze call throws. -/
theorem isErr_extractRestaurantInfo (env : Env) :
    isErr (extractRestaurantInfo env) = env.infoCall.isRemoteFail := by
  cases h : env.infoCall <;>
    simp [extractRestaurantInfo, h, isErr, CallResult.isRemoteFail]

/-- The style stage throws exactly when its analyze call throws. -/
theorem isErr_extractStyle (env : Env) (info : RestaurantInfo) :
    isErr (extractStyle env info) = env.styleCall.isRemoteFail := by
  cases h : env.styleCall <;>
    simp [extractStyle, h, isErr, CallResult.isRemoteFail]

/-- Structural facts about `extract`: the persisted run keeps the given run
identifier; the caller sees an error exactly when the upload, the metadata
probe, or one of the frame-selection / pass-1 / info / style calls fails
outright; and the persisted status is `"failed"` exactly when the caller
sees an error. -/
theorem extract_cases (n : Nat) (vp : String) (env : Env) :
    (extract n vp env).1.runId = n ∧
    isErr (extract n vp env).2 =
      (isErr env.upload || isErr env.metadata || env.framesCall.isRemoteFail ||
        env.pass1Call.isRemoteFail || env.infoCall.isRemoteFail ||
        env.styleCall.isRemoteFail) ∧
    ((extract n vp env).1.status = "failed" ↔ isErr (extract n vp env).2 = true) := by
  cases hu : env.upload with
  | error e => simp [extract, hu, mkFailedRun, isErr]
  | ok u =>
  cases hm : env.metadata with
  | error e => simp [extract, hu, hm, mkFailedRun, isErr]
  | ok dur =>
  cases hf : selectKeyFrames env dur with
  | error e =>
      have hb : env.framesCall.isRemoteFail = true := by
        rw [← isErr_selectKeyFrames env dur, hf]; rfl
      simp [extract, hu, hm, hf, hb, mkFailedRun, isErr]
  | ok kf =>
  have hb : env.framesCall.isRemoteFail = false := by
    rw [← isErr_selectKeyFrames env dur, hf]; rfl
  cases hmn : extractMenuTwoPass env with
  | error e =>
      have hb1 : env.pass1Call.isRemoteFail = true := by
        rw [← isErr_extractMenuTwoPass env, hmn]; rfl
      simp [extract, hu, hm, hf, hmn, hb, hb1, mkFailedRun, isErr]
  | ok menu =>
  have hb1 : env.pass1Call.isRemoteFail = false := by
    rw [← isErr_extractMenuTwoPass env, hmn]; rfl
  cases hi : extractRestaurantInfo env with
  | error e =>
      have hb2 : env.infoCall.isRemoteFail = true := by
        rw [← isErr_extractRestaurantInfo env, hi]; rfl
      simp [extract, hu, hm, hf, hmn, hi, hb, hb1, hb2, mkFailedRun, isErr]
  | ok info =>
  have hb2 : env.infoCall.isRemoteFail = false := by
    rw [← isErr_extractRestaurantInfo env, hi]; rfl
  cases hs : extractStyle env info with
  | error e =>
      have hb3 : env.styleCall.isRemoteFail = true := by
        rw [← isErr_extractStyle env info, hs]; rfl
      simp [extract, hu, hm, hf, hmn, hi, hs, hb, hb1, hb2, hb3, mkFailedRun, isErr]
  | ok style =>
      have hb3 : env.styleCall.isRemoteFail = false := by
        rw [← isErr_extractStyle env info, hs]; rfl
      simp +decide [extract, hu, hm, hf, hmn, hi, hs, hb, hb1, hb2, hb3,
        mkCompletedRun, isErr]

/-- C3 (amended): a primary-pipeline run is persisted with status `"failed"`
iff the §4.1 upload/readiness step, the metadata probe, or one of the
frame-selection, menu pass-1, restaurant-info, or style analyze calls fails
outright.  An outright failure of the pass-2 menu analyze call is absorbed
(the stage falls back to the pass-1 items), and a response-parse failure in
any stage is absorbed with a substituted default and never causes the failed
transition. -/
theorem c3_failed_iff_primary_call_fails (n : Nat) (vp : String) (env : Env) :
    (extract n vp env).1.status = "failed" ↔
      (isErr env.upload = true ∨ isErr env.metadata = true ∨
        env.framesCall.isRemoteFail = true ∨ env.pass1Call.isRemoteFail = true ∨
        env.infoCall.isRemoteFail = true ∨ env.styleCall.isRemoteFail = true) := by
  rw [(extract_cases n vp env).2.2, (extract_cases n vp env).2.1]
  simp [Bool.or_eq_true, or_assoc]

/-- C3 counterexample: with every other call succeeding, an outright failure
of the pass-2 menu analyze call — an awaited §4.2 analyze call of the primary
pipeline — still yields a run persisted with status `"completed"`, not
`"failed"`. -/
theorem c3_counterexample :
    envPass2Down.pass2Call = CallResult.remoteFail "network down" ∧
    (extract 0 "video.mp4" envPass2Down).1.status = "completed" ∧
    (extract 0 "video.mp4" envPass2Down).1.status ≠ "failed" :=
  ⟨rfl, rfl, by decide⟩

/-- C4: when the primary pipeline throws, the original run is persisted with
status `"failed"`, a brand-new run with the next fresh identifier and
`usedFallback = true` metadata is persisted for the fallback attempt, the
caller gets the complete fallback result when it succeeds, and an error is
surfaced only when the fallback also throws. -/
theorem c4_orchestrator_fallback (n : Nat) (vp : String) (env : Env)
    (fbEnv : FallbackEnv) (e : String)
    (h : (extract n vp env).2 = Except.error e) :
    (extract n vp env).1.status = "failed" ∧
    (extractWithFallback n vp env fbEnv).1.length = 2 ∧
    (extractWithFallback n vp env fbEnv).1.head? = some (extract n vp env).1 ∧
    (∀ fb ∈ (extractWithFallback n vp env fbEnv).1.tail,
      fb.runId = n + 1 ∧ fb.runId ≠ (extract n vp env).1.runId ∧
      fb.metadata.usedFallback = true) ∧
    (∀ result, extractFrameBased fbEnv = Except.ok result →
      (extractWithFallback n vp env fbEnv).2 = Except.ok result ∧
      ∀ fb ∈ (extractWithFallback n vp env fbEnv).1.tail,
        fb.status = "completed" ∧ fb.result = some result) ∧
    (∀ fe, extractFrameBased fbEnv = Except.error fe →
      (extractWithFallback n vp env fbEnv).2 = Except.error fe ∧
      ∀ fb ∈ (extractWithFallback n vp env fbEnv).1.tail, fb.status = "failed") := by
  have hfail : (extract n vp env).1.status = "failed" :=
    ((extract_cases n vp env).2.2).mpr (by rw [h]; rfl)
  have hid : (extract n vp env).1.runId = n := (extract_cases n vp env).1
  rcases hE : extract n vp env with ⟨run, res⟩
  rw [hE] at h hfail hid
  simp only at h hfail hid
  subst h
  refine ⟨hfail, ?_⟩
  cases hfb : extractFrameBased fbEnv with
  | ok result =>
      refine ⟨?_, ?_, ?_, ?_, ?_⟩ <;>
        simp +decide [extractWithFallback, hE, hfb, mkCompletedRun, mkFailedRun, hid]
  | error fe =>
      refine ⟨?_, ?_, ?_, ?_, ?_⟩ <;>
        simp +decide [extractWithFallback, hE, hfb, mkCompletedRun, mkFailedRun, hid]

/-- C4 witness: a failed upload triggers the fallback; with a succeeding
fallback environment the ledger holds the failed primary run followed by the
fallback run. -/
theorem c4_orchestrator_fallback_witness :
    (extract 0 "video.mp4" envUploadFail).2 = Except.error "boom" ∧
    (extract 0 "video.mp4" envUploadFail).1.status = "failed" ∧
    (extractWithFallback 0 "video.mp4" envUploadFail fbEnvOk).1.length = 2 ∧
    (extractWithFallback 0 "video.mp4" envUploadFail fbEnvOk).1.head? =
      some (extract 0 "video.mp4" envUploadFail).1 ∧
    (∀ fb ∈ (extractWithFallback 0 "video.mp4" envUploadFail fbEnvOk).1.tail,
      fb.runId = 0 + 1 ∧ fb.runId ≠ (extract 0 "video.mp4" envUploadFail).1.runId ∧
      fb.metadata.usedFallback = true) :=
  ⟨rfl,
    (c4_orchestrator_fallback 0 "video.mp4" envUploadFail fbEnvOk "boom" rfl).1,
    (c4_orchestrator_fallback 0 "video.mp4" envUploadFail fbEnvOk "boom" rfl).2.1,
    (c4_orchestrator_fallback 0 "video.mp4" envUploadFail fbEnvOk "boom" rfl).2.2.1,
    (c4_orchestrator_fallback 0 "video.mp4" envUploadFail fbEnvOk "boom" rfl).2.2.2.1⟩

/-- C5: on the fallback-confidence paths — a pass-2 outright failure or parse
failure, and the frame-based fallback pipeline — every returned menu item has
`confidence = 0.7` and `needsReview = true`, and the menu result is
unverified. -/
theorem c5_fallback_confidence (env : Env) (fbEnv : FallbackEnv) :
    (∀ p r, env.pass1Call = CallResult.ok p → p.items ≠ [] →
      (env.pass2Call.isRemoteFail = true ∨
        (∃ raw, env.pass2Call = CallResult.parseFail raw)) →
      extractMenuTwoPass env = Except.ok r →
      r.verified = false ∧
        ∀ it ∈ r.items, it.confidence = some 0.7 ∧ it.needsReview = true) ∧
    (∀ res, extractFrameBased fbEnv = Except.ok res →
      res.menuItems.verified = false ∧
        ∀ it ∈ res.menuItems.items,
          it.confidence = some 0.7 ∧ it.needsReview = true) := by
  constructor
  · intro p r h1 hne h2 hr
    have h2' : ∃ m, env.pass2Call = CallResult.remoteFail m ∨
        env.pass2Call = CallResult.parseFail m := by
      rcases h2 with h2 | ⟨raw, h2⟩
      · cases hp2 : env.pass2Call with
        | remoteFail m => exact ⟨m, Or.inl rfl⟩
        | parseFail m => rw [hp2] at h2; exact absurd h2 (by simp [CallResult.isRemoteFail])
        | ok v => rw [hp2] at h2; exact absurd h2 (by simp [CallResult.isRemoteFail])
      · exact ⟨raw, Or.inr h2⟩
    rcases h2' with ⟨m, hp2 | hp2⟩ <;>
      · simp only [extractMenuTwoPass, h1, hp2, if_neg hne, Except.ok.injEq] at hr
        subst hr
        refine ⟨rfl, ?_⟩
        intro it hit
        simp only [List.mem_map] at hit
        obtain ⟨a, _, rfl⟩ := hit
        exact ⟨rfl, rfl⟩
  · intro res hres
    cases hf : fbEnv.extractFrames with
    | error e => rw [extractFrameBased, hf] at hres; exact absurd hres (by simp)
    | ok paths =>
    cases hv : fbEnv.visionData with
    | error e => rw [extractFrameBased, hf, hv] at hres; exact absurd hres (by simp)
    | ok d =>
        rw [extractFrameBased, hf, hv] at hres
        simp only [Except.ok.injEq] at hres
        subst hres
        refine ⟨rfl, ?_⟩
        intro it hit
        simp only [List.mem_map] at hit
        obtain ⟨a, _, rfl⟩ := hit
        exact ⟨rfl, rfl⟩

/-- C5 witness: a concrete pass-2 parse failure yields the pass-1 item with
confidence 0.7, `needsReview = true`, and an unverified result. -/
theorem c5_fallback_confidence_witness :
    envPass2Parse.pass1Call =
      CallResult.ok { items := [pass1Item], menuStyleNotes := "board" } ∧
    [pass1Item] ≠ ([] : List MenuItem) ∧
    envPass2Parse.pass2Call = CallResult.parseFail "garbage" ∧
    extractMenuTwoPass envPass2Parse = Except.ok menuFallbackResult ∧
    menuFallbackResult.verified = false ∧
    (∀ it ∈ menuFallbackResult.items,
      it.confidence = some 0.7 ∧ it.needsReview = true) :=
  ⟨rfl, by decide, rfl, rfl,
    ((c5_fallback_confidence envPass2Parse fbEnvOk).1
      { items := [pass1Item], menuStyleNotes := "board" } menuFallbackResult
      rfl (by decide) (Or.inr ⟨"garbage", rfl⟩) rfl).1,
    ((c5_fallback_confidence envPass2Parse fbEnvOk).1
      { items := [pass1Item], menuStyleNotes := "board" } menuFallbackResult
      rfl (by decide) (Or.inr ⟨"garbage", rfl⟩) rfl).2⟩

/-- C6: on a frame-selection parse failure with positive duration, the stage
returns exactly the 10 fallback frames, all tagged `"unknown"`/`"medium"`,
with timestamps inside `[0, duration]`, strictly increasing and evenly
spaced at `duration / 11`. -/
theorem c6_frame_selection_fallback (d : ℚ) (hd : 0 < d) (env : Env)
    (raw : String) (h : env.framesCall = CallResult.parseFail raw) :
    selectKeyFrames env d = Except.ok (fallbackFrames d) ∧
    (fallbackFrames d).length = 10 ∧
    (∀ f ∈ fallbackFrames d, f.type = "unknown" ∧ f.priority = "medium" ∧
      0 ≤ f.timestamp ∧ f.timestamp ≤ d) ∧
    List.Pairwise (fun a b => a.timestamp < b.timestamp) (fallbackFrames d) ∧
    (∀ i, ∀ h1 : i < (fallbackFrames d).length,
      ∀ h2 : i + 1 < (fallbackFrames d).length,
      ((fallbackFrames d).get ⟨i + 1, h2⟩).timestamp -
        ((fallbackFrames d).get ⟨i, h1⟩).timestamp = d / 11) := by
  have hlen : (fallbackFrames d).length = 10 := by simp [fallbackFrames]
  refine ⟨by simp [selectKeyFrames, h], hlen, ?_, ?_, ?_⟩
  · intro f hf
    simp only [fallbackFrames, List.mem_map, List.mem_range] at hf
    obtain ⟨i, hi, rfl⟩ := hf
    refine ⟨rfl, rfl, by positivity, ?_⟩
    have hi' : (i : ℚ) + 1 ≤ 11 := by
      have : (i : ℚ) ≤ 9 := by exact_mod_cast Nat.lt_succ_iff.mp hi
      linarith
    have hpos : (0 : ℚ) ≤ d / 11 := by positivity
    calc d / 11 * (i + 1) ≤ d / 11 * 11 := by
          exact mul_le_mul_of_nonneg_left hi' hpos
      _ = d := div_mul_cancel₀ d (by norm_num)
  · rw [fallbackFrames, List.pairwise_map]
    have hbase : List.Pairwise (· < ·) (List.range 10) := List.pairwise_lt_range 10
    refine hbase.imp ?_
    intro a b hab
    have : (a : ℚ) + 1 < (b : ℚ) + 1 := by exact_mod_cast Nat.succ_lt_succ hab
    exact mul_lt_mul_of_pos_left this (by positivity)
  · intro i h1 h2
    rw [hlen] at h1 h2
    simp only [fallbackFrames, List.get_eq_getElem, List.getElem_map, List.getElem_range]
    push_cast
    ring

/-- C6 witness: duration 30 with a forced parse failure gives the 10 evenly
spaced fallback frames. -/
theorem c6_frame_selection_fallback_witness :
    (0 : ℚ) < 30 ∧
    envFramesParse.framesCall = CallResult.parseFail "oops" ∧
    (selectKeyFrames envFramesParse 30 = Except.ok (fallbackFrames 30) ∧
      (fallbackFrames 30).length = 10 ∧
      (∀ f ∈ fallbackFrames 30, f.type = "unknown" ∧ f.priority = "medium" ∧
        0 ≤ f.timestamp ∧ f.timestamp ≤ 30) ∧
      List.Pairwise (fun a b => a.timestamp < b.timestamp) (fallbackFrames 30) ∧
      (∀ i, ∀ h1 : i < (fallbackFrames 30).length,
        ∀ h2 : i + 1 < (fallbackFrames 30).length,
        ((fallbackFrames 30).get ⟨i + 1, h2⟩).timestamp -
          ((fallbackFrames 30).get ⟨i, h1⟩).timestamp = 30 / 11)) :=
  ⟨by norm_num, rfl,
    c6_frame_selection_fallback 30 (by norm_num) envFramesParse "oops" rfl⟩

/-- C7: if pass 1 parses to zero items, pass 2 is skipped (the result does
not depend on the pass-2 outcome) and the stage returns an empty verified
result; if pass 1 fails to parse, the stage returns an empty unverified
result, also independently of pass 2. -/
theorem c7_pass1_empty_and_parse_fail (env : Env) :
    (∀ p, env.pass1Call = CallResult.ok p → p.items = [] →
      extractMenuTwoPass env =
        Except.ok { items := [], verified := true
                    menuStyleNotes := some p.menuStyleNotes } ∧
      ∀ p2, extractMenuTwoPass { env with pass2Call := p2 } =
        extractMenuTwoPass env) ∧
    (∀ raw, env.pass1Call = CallResult.parseFail raw →
      extractMenuTwoPass env =
        Except.ok { items := [], verified := false, menuStyleNotes := none } ∧
      ∀ p2, extractMenuTwoPass { env with pass2Call := p2 } =
        extractMenuTwoPass env) := by
  constructor
  · intro p h hp
    constructor
    · simp [extractMenuTwoPass, h, hp]
    · intro p2
      simp [extractMenuTwoPass, h, hp]
  · intro raw h
    constructor
    · simp [extractMenuTwoPass, h]
    · intro p2
      simp [extractMenuTwoPass, h]

/-- C7 witness: concrete zero-item and parse-failure pass-1 environments. -/
theorem c7_pass1_empty_and_parse_fail_witness :
    envPass1Empty.pass1Call =
      CallResult.ok { items := [], menuStyleNotes := "no menu shown" } ∧
    extractMenuTwoPass envPass1Empty =
      Except.ok { items := [], verified := true
                  menuStyleNotes := some "no menu shown" } ∧
    envPass1Parse.pass1Call = CallResult.parseFail "bad json" ∧
    extractMenuTwoPass envPass1Parse =
      Except.ok { items := [], verified := false, menuStyleNotes := none } :=
  ⟨rfl,
    ((c7_pass1_empty_and_parse_fail envPass1Empty).1
      { items := [], menuStyleNotes := "no menu shown" } rfl rfl).1,
    rfl,
    ((c7_pass1_empty_and_parse_fail envPass1Parse).2 "bad json" rfl).1⟩

/-- C9: after every index update the persisted index has at most 100
entries, the just-saved summary at the front, at most one entry per run
identifier (preserved from the previous index), and the remaining entries
are the previous ones in order; listing runs returns the stored index, or
`[]` when none exists. -/
theorem c9_recent_runs_index (index : List RunSummary) (s : RunSummary)
    (h : (index.map RunSummary.runId).Nodup) :
    (updateIndex index s).length ≤ 100 ∧
    (updateIndex index s).head? = some s ∧
    ((updateIndex index s).map RunSummary.runId).Nodup ∧
    (updateIndex index s).tail.Sublist index ∧
    listRuns none = [] ∧
    listRuns (some (updateIndex index s)) = updateIndex index s := by
  have h100 : (100 : Nat) = 99 + 1 := rfl
  have hsplit : updateIndex index s =
      s :: (index.filter (fun r => r.runId ≠ s.runId)).take 99 := by
    rw [updateIndex, h100, List.take_succ_cons]
  have hfsub : (index.filter (fun r => r.runId ≠ s.runId)).take 99 |>.Sublist index :=
    (List.take_sublist _ _).trans (List.filter_sublist _)
  refine ⟨?_, ?_, ?_, ?_, rfl, rfl⟩
  · rw [updateIndex]
    exact List.length_take_le _ _
  · rw [hsplit]; rfl
  · rw [hsplit]
    simp only [List.map_cons, List.nodup_cons]
    constructor
    · intro hmem
      simp only [List.mem_map] at hmem
      obtain ⟨r, hr, hrid⟩ := hmem
      have hr' : r ∈ index.filter (fun x => x.runId ≠ s.runId) :=
        (List.take_sublist _ _).mem hr
      have := (List.mem_filter.mp hr').2
      simp only [decide_eq_true_eq] at this
      exact this hrid
    · exact ((hfsub.map RunSummary.runId).nodup h)
  · rw [hsplit]
    exact hfsub
  
/-- C9 witness: re-saving run 7 over an index holding runs 5 and 7 keeps one
entry per identifier with the new summary in front. -/
theorem c9_recent_runs_index_witness :
    ([runSummaryA, runSummaryB].map RunSummary.runId).Nodup ∧
    (updateIndex [runSummaryA, runSummaryB] runSummaryB2).length ≤ 100 ∧
    (updateIndex [runSummaryA, runSummaryB] runSummaryB2).head? = some runSummaryB2 ∧
    ((updateIndex [runSummaryA, runSummaryB] runSummaryB2).map RunSummary.runId).Nodup ∧
    (updateIndex [runSummaryA, runSummaryB] runSummaryB2).tail.Sublist
      [runSummaryA, runSummaryB] :=
  ⟨by decide,
    (c9_recent_runs_index [runSummaryA, runSummaryB] runSummaryB2 (by decide)).1,
    (c9_recent_runs_index [runSummaryA, runSummaryB] runSummaryB2 (by decide)).2.1,
    (c9_recent_runs_index [runSummaryA, runSummaryB] runSummaryB2 (by decide)).2.2.1,
    (c9_recent_runs_index [runSummaryA, runSummaryB] runSummaryB2 (by decide)).2.2.2.1⟩
